import Mathlib

/-
Shallow embedding of the fraud-manager backend (src/main.py, src/app/models.py).

Time is modelled as `Int` seconds; `timedelta(days=d)` becomes `d * 86400`.
The Firestore collection "queries" is a `List Observation` (append-only event
store); the collection "blocked_phone_numbers" is a `Registry`, a map from
phone number to an optional document, where a document is a list of
field/value pairs (a Firestore `set` without merge replaces the whole
document).  Fallible store operations are made explicit where a claim is
about failure behaviour.
-/

namespace FraudManager

/-- Character class kept by `re.sub(r"[^a-zA-Z0-9]", "", s)`: ASCII letters
and digits. -/
def isAsciiAlnum (c : Char) : Bool :=
  (('a' ≤ c && c ≤ 'z') || ('A' ≤ c && c ≤ 'Z') || ('0' ≤ c && c ≤ '9'))

/-- `clean_string_regex` from src/main.py: removes every character that is
not an ASCII letter or digit. -/
def clean_string_regex (s : String) : String :=
  ⟨s.data.filter isAsciiAlnum⟩

/-- `DIALOGFLOW_MESSAGES["ERROR_EXTRACTING_PARAMS"]`. -/
def ERROR_EXTRACTING_PARAMS : String := "No se pudo obtener el número de teléfono o el rut."

/-- `DIALOGFLOW_MESSAGES["BLOCKED_NUMBER"]`. -/
def BLOCKED_NUMBER : String := "Este número de teléfono ha sido bloqueado por actividad sospechosa."

/-- `DIALOGFLOW_MESSAGES["ALLOWED_NUMBER"]`. -/
def ALLOWED_NUMBER : String := "Número de teléfono permitido."

/-- The environment-derived constants of src/main.py
(`MAX_DISTINCT_NATIONAL_IDS`, `DAY_PERIOD`, `WEEK_PERIOD`, `MONTH_PERIOD`). -/
structure Config where
  max_distinct_national_ids : Nat
  day_period : Int
  week_period : Int
  month_period : Int
deriving DecidableEq

/-- The defaults used when no environment variable is set: threshold 3,
periods 1, 7 and 30 days. -/
def defaultConfig : Config := ⟨3, 1, 7, 30⟩

/-- One document of the "queries" collection, as written by
`update_blocked_phone_numbers`. -/
structure Observation where
  phone_number : String
  national_id : String
  query_timestamp : Int
deriving DecidableEq

/-- A Firestore field value (only strings and timestamps occur in the
documents this program writes). -/
inductive Value where
  | str : String → Value
  | int : Int → Value
deriving DecidableEq

/-- A Firestore document: a list of field/value pairs. -/
abbrev Document := List (String × Value)

/-- The "blocked_phone_numbers" collection: phone number → document. -/
def Registry : Type := String → Option Document

/-- A Firestore `document(key).set(doc)` without merge: the whole document
under `key` is replaced by `doc`. -/
def Registry.set (r : Registry) (key : String) (doc : Document) : Registry :=
  fun k => if k = key then some doc else r k

/-- The empty block registry. -/
def Registry.empty : Registry := fun _ => none

/-- Response built by `build_dialogflow_response`: the session parameter
`block` and the fulfillment message text. -/
structure DialogflowResponse where
  block : Bool
  message : String
deriving DecidableEq

/-- `build_dialogflow_response` from src/main.py. -/
def build_dialogflow_response (block : Bool) (message : String) : DialogflowResponse :=
  ⟨block, message⟩

/-- The reason string written on an automatic block:
`f"Automatic block (rule: {period_name} period)"` in src/main.py. -/
def blockReason (period_name : String) : String :=
  "Automatic block (rule: " ++ period_name ++ " period)"

/-- The document written by `update_blocked_phone_numbers` when a rule
triggers: reason, block timestamp and `agent_id = "automatic_block"`. -/
def automaticBlockDoc (period_name : String) (now : Int) : Document :=
  [("reason", Value.str (blockReason period_name)),
   ("block_timestamp", Value.int now),
   ("agent_id", Value.str "automatic_block")]

/-- The period list iterated by `update_blocked_phone_numbers`, in source
order: `[(MONTH_PERIOD, "month"), (WEEK_PERIOD, "week"), (DAY_PERIOD, "day")]`. -/
def periods (cfg : Config) : List (Int × String) :=
  [(cfg.month_period, "month"), (cfg.week_period, "week"), (cfg.day_period, "day")]

/-- Distinct `national_id` values of the stored queries matching
`phone_number == phone` and `query_timestamp >= limit` — the Firestore
query plus set comprehension of `update_blocked_phone_numbers`. -/
def windowNationalIds (store : List Observation) (phone : String) (limit : Int) :
    Finset String :=
  ((store.filter fun o => decide (o.phone_number = phone ∧ limit ≤ o.query_timestamp)).map
    (fun o => o.national_id)).toFinset

/-- Outcome of one window's Firestore read inside the per-window
`try`/`except`: either the distinct-ID set, or a raised storage exception. -/
inductive ReadResult where
  | ok : Finset String → ReadResult
  | readError : ReadResult
deriving DecidableEq

/-- The `for days, period_name in [...]` loop of
`update_blocked_phone_numbers`: each window either read successfully
(threshold test, block write, `break`) or raised (logged by the `except`
branch, loop continues with the next window). Returns the final registry
and the reason written, if any. -/
def evalLoop (threshold : Nat) (now : Int) (registry : Registry) (phone : String) :
    List (String × ReadResult) → Registry × Option String
  | [] => (registry, none)
  | (name, ReadResult.ok ids) :: rest =>
      if threshold ≤ ids.card then
        (registry.set phone (automaticBlockDoc name now), some (blockReason name))
      else evalLoop threshold now registry phone rest
  | (_, ReadResult.readError) :: rest => evalLoop threshold now registry phone rest

/-- All windows read successfully from `store`: the per-window outcomes of
the loop when no storage exception occurs
(`limit_timestamp = now - timedelta(days=days)`). -/
def windowOutcomes (store : List Observation) (phone : String) (now : Int)
    (ps : List (Int × String)) : List (String × ReadResult) :=
  ps.map (fun p => (p.2, ReadResult.ok (windowNationalIds store phone (now - p.1 * 86400))))

/-- `update_blocked_phone_numbers` from src/main.py: first append the new
query document to the "queries" collection (the `try`/`except` around the
`add` is modelled by `appendOk`: on failure the error is logged and
processing continues on the unchanged store), then run the window loop.
Returns the resulting store, registry, and the block reason if a rule
triggered. -/
def update_blocked_phone_numbers (cfg : Config) (phone_number queried_national_id : String)
    (now : Int) (appendOk : Bool) (store : List Observation) (registry : Registry) :
    List Observation × Registry × Option String :=
  let store' := if appendOk then store ++ [⟨phone_number, queried_national_id, now⟩] else store
  let r := evalLoop cfg.max_distinct_national_ids now registry phone_number
      (windowOutcomes store' phone_number now (periods cfg))
  (store', r.1, r.2)

/-- `check_phone_number` from src/main.py: clean the caller id, look the
phone number up in "blocked_phone_numbers", and answer BLOCKED_NUMBER or
ALLOWED_NUMBER. (The request model `CheckRequest` carries only
`payload.telephony.caller_id`; no national ID field exists on this
endpoint.) -/
def check_phone_number (registry : Registry) (caller_id : String) : DialogflowResponse :=
  let phone_number := clean_string_regex caller_id
  match registry phone_number with
  | some _ => build_dialogflow_response true BLOCKED_NUMBER
  | none => build_dialogflow_response false ALLOWED_NUMBER

/-- `check_phone_number` with the block-list `get` made fallible. In the
source the `await ... .get()` on line 120 has no `try`/`except`, so a
raised storage error propagates out of the endpoint (an unhandled
exception, i.e. a 5xx); only a successful read reaches the
`build_dialogflow_response` calls. -/
def check_phone_number_fallible (lookup : Except String (Option Document)) :
    Except String DialogflowResponse :=
  match lookup with
  | Except.error e => Except.error e
  | Except.ok (some _) => Except.ok (build_dialogflow_response true BLOCKED_NUMBER)
  | Except.ok none => Except.ok (build_dialogflow_response false ALLOWED_NUMBER)

/-- Response of the `/queries/` endpoint as the transport sees it. -/
inductive QueryResponse where
  | ok : QueryResponse
  | validationError422 : QueryResponse
  | dialogflowError : DialogflowResponse → QueryResponse
deriving DecidableEq

/-- `register_query` from src/main.py. A missing `caller_id` or
`national_id` field fails Pydantic validation before the handler body runs
(`none` here); otherwise both strings are cleaned and the background task
`update_blocked_phone_numbers` is scheduled with the cleaned pair (second
component), and the endpoint returns `{"status": "ok"}`. No emptiness
check is performed on the cleaned strings. -/
def register_query (caller_id national_id : Option String) :
    QueryResponse × Option (String × String) :=
  match caller_id, national_id with
  | some c, some n => (QueryResponse.ok, some (clean_string_regex c, clean_string_regex n))
  | _, _ => (QueryResponse.validationError422, none)

/-- `validation_exception_handler` from src/main.py: for the `/queries/`
path it delegates to the framework's default 422 handler; for every other
path it returns the Dialogflow-formatted 400 response with
ERROR_EXTRACTING_PARAMS. -/
def validation_exception_handler (path : String) : QueryResponse :=
  if path = "/queries/" then QueryResponse.validationError422
  else QueryResponse.dialogflowError (build_dialogflow_response true ERROR_EXTRACTING_PARAMS)

/-! Helper lemmas shared by several theorems. -/

/-- Unfolding of the per-window outcomes over the source period list. -/
lemma windowOutcomes_periods (store : List Observation) (p : String) (now : Int) (cfg : Config) :
    windowOutcomes store p now (periods cfg) =
      [("month", ReadResult.ok (windowNationalIds store p (now - cfg.month_period * 86400))),
       ("week", ReadResult.ok (windowNationalIds store p (now - cfg.week_period * 86400))),
       ("day", ReadResult.ok (windowNationalIds store p (now - cfg.day_period * 86400)))] := rfl

/-- The loop over three successfully read windows is a first-trigger-wins
cascade: month, then week, then day, stopping at the first threshold hit. -/
lemma evalLoop_three (t : Nat) (now : Int) (reg : Registry) (p : String)
    (a b c : Finset String) :
    evalLoop t now reg p
        [("month", ReadResult.ok a), ("week", ReadResult.ok b), ("day", ReadResult.ok c)] =
      (if t ≤ a.card then
        (reg.set p (automaticBlockDoc "month" now), some (blockReason "month"))
      else if t ≤ b.card then
        (reg.set p (automaticBlockDoc "week" now), some (blockReason "week"))
      else if t ≤ c.card then
        (reg.set p (automaticBlockDoc "day" now), some (blockReason "day"))
      else (reg, none)) := by
  by_cases h1 : t ≤ a.card <;> by_cases h2 : t ≤ b.card <;> by_cases h3 : t ≤ c.card <;>
    simp [evalLoop, h1, h2, h3]

/-- A lower window limit only enlarges the matching set of stored queries. -/
lemma windowNationalIds_subset (store : List Observation) (p : String) {l1 l2 : Int}
    (h : l1 ≤ l2) :
    windowNationalIds store p l2 ⊆ windowNationalIds store p l1 := by
  intro x hx
  simp only [windowNationalIds, List.mem_toFinset, List.mem_map, List.mem_filter,
    decide_eq_true_eq] at hx ⊢
  obtain ⟨o, ⟨ho, hp, ht⟩, rfl⟩ := hx
  exact ⟨o, ⟨ho, hp, le_trans h ht⟩, rfl⟩

/-- The decision component of the loop does not depend on the registry. -/
lemma evalLoop_snd_registry_indep (t : Nat) (now : Int) (reg reg' : Registry) (p : String)
    (os : List (String × ReadResult)) :
    (evalLoop t now reg p os).2 = (evalLoop t now reg' p os).2 := by
  induction os with
  | nil => rfl
  | cons hd rest ih =>
    obtain ⟨n', r'⟩ := hd
    cases r' with
    | ok ids => by_cases h : t ≤ ids.card <;> simp [evalLoop, h, ih]
    | readError => simp [evalLoop, ih]

/-- Four observations for phone "X" with four distinct national IDs, all
within the last day of the instant 1000000 (one day = 86400 seconds). -/
def demoStore : List Observation :=
  [⟨"X", "A", 999900⟩, ⟨"X", "B", 999901⟩, ⟨"X", "C", 999902⟩, ⟨"X", "D", 999903⟩]

/-- A manually created block document, mirroring the sample data written by
src/populate_firestore.py. -/
def manualBlockDoc : Document :=
  [("reason", Value.str "Reported by customer for fraudulent call"),
   ("block_timestamp", Value.int 0),
   ("agent_id", Value.str "Conversational Agent")]

/-! Claim theorems. -/

/-- Claim C1 (amended): the evaluation visits the windows in the fixed order
month, week, day; the first window whose distinct-national-ID count reaches
the threshold gets the block document written, with reason exactly
"Automatic block (rule: <window_name> period)" — capital A, unlike the
claimed lowercase spelling — and no shorter window is evaluated. -/
theorem c1_window_order_and_reason (cfg : Config) (p n : String) (now : Int)
    (appendOk : Bool) (store : List Observation) (reg : Registry) :
    update_blocked_phone_numbers cfg p n now appendOk store reg =
      (let st := if appendOk then store ++ [⟨p, n, now⟩] else store
       let t := cfg.max_distinct_national_ids
       let cm := windowNationalIds st p (now - cfg.month_period * 86400)
       let cw := windowNationalIds st p (now - cfg.week_period * 86400)
       let cd := windowNationalIds st p (now - cfg.day_period * 86400)
       (st,
        if t ≤ cm.card then
          (reg.set p (automaticBlockDoc "month" now), some (blockReason "month"))
        else if t ≤ cw.card then
          (reg.set p (automaticBlockDoc "week" now), some (blockReason "week"))
        else if t ≤ cd.card then
          (reg.set p (automaticBlockDoc "day" now), some (blockReason "day"))
        else (reg, none))) := by
  simp only [update_blocked_phone_numbers, windowOutcomes_periods, evalLoop_three]

/-- Claim C1 counterexample: on a concrete run that triggers the month rule,
the written reason is "Automatic block (rule: month period)", which is not
the claimed string "automatic block (rule: month period)". -/
theorem c1_reason_spelling_counterexample :
    (update_blocked_phone_numbers defaultConfig "X" "E" 1000000 true demoStore
        Registry.empty).2.2 = some "Automatic block (rule: month period)" ∧
    "Automatic block (rule: month period)" ≠ "automatic block (rule: month period)" := by
  constructor
  · decide
  · decide

/-- Claim C2 (amended): with the default configuration (threshold 3, windows
30, 7, 1 days) and four observations for phone "X" carrying four distinct
national IDs all within the last day, the fifth query with a fifth distinct
ID blocks "X" — but the reason references the month window, because the
loop evaluates the longest window first and those observations also lie
within the last 30 days. -/
theorem c2_fifth_query_blocks_with_month_reason :
    demoStore.length = 4 ∧
    (∀ o ∈ demoStore, o.phone_number = "X" ∧ 1000000 - 1 * 86400 ≤ o.query_timestamp) ∧
    (windowNationalIds (demoStore ++ [⟨"X", "E", 1000000⟩]) "X" (1000000 - 1 * 86400)).card = 5 ∧
    (update_blocked_phone_numbers defaultConfig "X" "E" 1000000 true demoStore
        Registry.empty).2.2 = some (blockReason "month") ∧
    (update_blocked_phone_numbers defaultConfig "X" "E" 1000000 true demoStore
        Registry.empty).2.1 "X" = some (automaticBlockDoc "month" 1000000) := by
  refine ⟨by decide, by decide, by decide, by decide, by decide⟩

/-- Claim C2 counterexample: on exactly the claimed scenario the block
reason is the month one and does not mention the day window at all. -/
theorem c2_day_reason_counterexample :
    (update_blocked_phone_numbers defaultConfig "X" "E" 1000000 true demoStore
        Registry.empty).2.2 = some (blockReason "month") ∧
    ¬ List.IsInfix "day".data (blockReason "month").data := by
  constructor
  · decide
  · decide

/-- Claim C3: the check endpoint answers from the presence of a block
document alone — BLOCKED_NUMBER when one exists for the cleaned phone
number, ALLOWED_NUMBER otherwise. The request model of this endpoint
(CheckRequest in src/app/models.py) carries no national ID field, so no
supplied national ID can influence the answer. -/
theorem c3_check_reads_only_blocklist (reg : Registry) (caller : String) :
    ((reg (clean_string_regex caller)).isSome = true →
      check_phone_number reg caller = build_dialogflow_response true BLOCKED_NUMBER) ∧
    (reg (clean_string_regex caller) = none →
      check_phone_number reg caller = build_dialogflow_response false ALLOWED_NUMBER) := by
  constructor <;> intro h <;>
    cases hr : reg (clean_string_regex caller) <;>
    simp [check_phone_number, hr] <;> simp [hr] at h

/-- Claim C3 witness: a phone number with a block document answers blocked,
one without answers allowed, at concrete inputs. -/
theorem c3_check_reads_only_blocklist_witness :
    check_phone_number (Registry.set Registry.empty "56911111111" manualBlockDoc)
        "+56 9 1111-1111" = build_dialogflow_response true BLOCKED_NUMBER ∧
    check_phone_number Registry.empty "+56 9 1111-1111" =
      build_dialogflow_response false ALLOWED_NUMBER := by
  constructor
  · exact (c3_check_reads_only_blocklist
      (Registry.set Registry.empty "56911111111" manualBlockDoc) "+56 9 1111-1111").1
      (by decide)
  · exact (c3_check_reads_only_blocklist Registry.empty "+56 9 1111-1111").2 rfl

/-- Claim C4 (amended): on the `/queries/` path a missing national ID fails
validation and gets the framework default 422 response (the custom handler
explicitly defers for this path), and no background task — hence no
Observation write — happens; a national ID that merely normalizes to the
empty string is NOT rejected: the endpoint returns ok, schedules the task
with the empty string, and an Observation with empty national_id is
appended to the event store. -/
theorem c4_empty_national_id_not_rejected (c nid : String) (store : List Observation)
    (reg : Registry) (now : Int) (h : clean_string_regex nid = "") :
    register_query (some c) none = (QueryResponse.validationError422, none) ∧
    validation_exception_handler "/queries/" = QueryResponse.validationError422 ∧
    register_query (some c) (some nid) = (QueryResponse.ok, some (clean_string_regex c, "")) ∧
    (update_blocked_phone_numbers defaultConfig (clean_string_regex c) "" now true store
        reg).1 = store ++ [⟨clean_string_regex c, "", now⟩] := by
  refine ⟨rfl, rfl, ?_, rfl⟩
  simp [register_query, h]

/-- Claim C4 witness: concrete inputs for the amended claim; the punctuation
string normalizes to empty, the endpoint still answers ok, and the
Observation with empty national_id lands in the store. -/
theorem c4_empty_national_id_not_rejected_witness :
    register_query (some "+56911111111") (some "...---...") =
      (QueryResponse.ok, some (clean_string_regex "+56911111111", "")) ∧
    (update_blocked_phone_numbers defaultConfig (clean_string_regex "+56911111111") "" 0 true
        [] Registry.empty).1 = [⟨clean_string_regex "+56911111111", "", 0⟩] := by
  obtain ⟨h1, h2, h3, h4⟩ := c4_empty_national_id_not_rejected "+56911111111" "...---..."
    [] Registry.empty 0 (by decide)
  exact ⟨h3, h4⟩

/-- Claim C4 counterexample: a missing national ID yields the default 422
response, not the Dialogflow extraction-error response; and a national ID
normalizing to empty is processed normally — the endpoint answers ok and an
Observation with empty national_id IS written. -/
theorem c4_counterexample :
    (register_query (some "+56911111111") none).1 = QueryResponse.validationError422 ∧
    (register_query (some "+56911111111") none).1 ≠
      QueryResponse.dialogflowError (build_dialogflow_response true ERROR_EXTRACTING_PARAMS) ∧
    (register_query (some "+56911111111") (some "...---...")).1 = QueryResponse.ok ∧
    (register_query (some "+56911111111") (some "...---...")).2 = some ("56911111111", "") ∧
    (update_blocked_phone_numbers defaultConfig "56911111111" "" 0 true []
        Registry.empty).1 = [⟨"56911111111", "", 0⟩] := by
  refine ⟨by decide, by decide, by decide, by decide, by decide⟩

/-- Claim C5: a storage-read failure for one window removes exactly that
window from the evaluation — every other window, wherever it sits in the
list, is still processed with unchanged semantics, so the failure can
neither produce a block by itself nor suppress the decision another window
makes. -/
theorem c5_read_failure_local (t : Nat) (now : Int) (reg : Registry) (p name : String)
    (pre post : List (String × ReadResult)) :
    evalLoop t now reg p (pre ++ (name, ReadResult.readError) :: post) =
      evalLoop t now reg p (pre ++ post) := by
  induction pre with
  | nil => simp [evalLoop]
  | cons hd rest ih =>
    obtain ⟨n', r'⟩ := hd
    cases r' with
    | ok ids => by_cases h : t ≤ ids.card <;> simp [evalLoop, h, ih]
    | readError => simp [evalLoop, ih]

/-- Claim C6: the new Observation is appended before any window is read —
on append success the whole window loop runs over the store extended with
the new Observation — and on append failure the loop still runs to
completion over the unchanged store instead of aborting the invocation. -/
theorem c6_append_before_evaluation (cfg : Config) (p n : String) (now : Int)
    (store : List Observation) (reg : Registry) :
    (update_blocked_phone_numbers cfg p n now true store reg).1 = store ++ [⟨p, n, now⟩] ∧
    (update_blocked_phone_numbers cfg p n now true store reg).2 =
      evalLoop cfg.max_distinct_national_ids now reg p
        (windowOutcomes (store ++ [⟨p, n, now⟩]) p now (periods cfg)) ∧
    (update_blocked_phone_numbers cfg p n now false store reg).1 = store ∧
    (update_blocked_phone_numbers cfg p n now false store reg).2 =
      evalLoop cfg.max_distinct_national_ids now reg p
        (windowOutcomes store p now (periods cfg)) := by
  refine ⟨rfl, ?_, rfl, ?_⟩ <;> simp [update_blocked_phone_numbers]

/-- Claim C7: a window with a larger length, read at the same or an earlier
instant, collects a superset of the national IDs of any shorter window, so
its distinct count is at least as large; consequently, whenever the day
window of a descending-sorted configuration reaches the threshold, the loop
(which reads the month window first) necessarily produces a block. -/
theorem c7_longer_window_superset (store : List Observation) (p : String)
    (now1 now2 d1 d2 : Int) (cfg : Config) (reg : Registry)
    (h1 : now1 ≤ now2) (h2 : d2 ≤ d1) :
    windowNationalIds store p (now2 - d2 * 86400) ⊆
      windowNationalIds store p (now1 - d1 * 86400) ∧
    (windowNationalIds store p (now2 - d2 * 86400)).card ≤
      (windowNationalIds store p (now1 - d1 * 86400)).card ∧
    (cfg.day_period ≤ cfg.week_period → cfg.week_period ≤ cfg.month_period →
      cfg.max_distinct_national_ids ≤
        (windowNationalIds store p (now2 - cfg.day_period * 86400)).card →
      ((evalLoop cfg.max_distinct_national_ids now2 reg p
          (windowOutcomes store p now2 (periods cfg))).2).isSome = true) := by
  have hsub : windowNationalIds store p (now2 - d2 * 86400) ⊆
      windowNationalIds store p (now1 - d1 * 86400) :=
    windowNationalIds_subset store p (by omega)
  refine ⟨hsub, Finset.card_le_card hsub, ?_⟩
  intro hdw hwm hday
  have hsub1 : windowNationalIds store p (now2 - cfg.day_period * 86400) ⊆
      windowNationalIds store p (now2 - cfg.month_period * 86400) :=
    windowNationalIds_subset store p (by omega)
  have hmonth : cfg.max_distinct_national_ids ≤
      (windowNationalIds store p (now2 - cfg.month_period * 86400)).card :=
    le_trans hday (Finset.card_le_card hsub1)
  rw [windowOutcomes_periods, evalLoop_three, if_pos hmonth]
  rfl

/-- Claim C7 witness: the subset and the forced block at a concrete store
(four distinct IDs in the last day) and the default configuration. -/
theorem c7_longer_window_superset_witness :
    windowNationalIds demoStore "X" (1000000 - 1 * 86400) ⊆
      windowNationalIds demoStore "X" (1000000 - 30 * 86400) ∧
    ((evalLoop defaultConfig.max_distinct_national_ids 1000000 Registry.empty "X"
        (windowOutcomes demoStore "X" 1000000 (periods defaultConfig))).2).isSome = true := by
  obtain ⟨hsub, hcard, himp⟩ := c7_longer_window_superset demoStore "X" 1000000 1000000 30 1
    defaultConfig Registry.empty (le_refl 1000000) (by decide)
  exact ⟨hsub, himp (by decide) (by decide) (by decide)⟩

/-- Claim C8 (amended): the block-list read in check_phone_number sits
outside any try/except, so a storage error propagates out of the endpoint
unchanged (an unhandled exception, surfacing as a 5xx) and no Dialogflow
decision response — conservative or otherwise — is produced; only a
successful read yields the blocked/allowed responses. -/
theorem c8_lookup_error_propagates (e : String) (doc : Document) :
    check_phone_number_fallible (Except.error e) = Except.error e ∧
    check_phone_number_fallible (Except.ok (some doc)) =
      Except.ok (build_dialogflow_response true BLOCKED_NUMBER) ∧
    check_phone_number_fallible (Except.ok none) =
      Except.ok (build_dialogflow_response false ALLOWED_NUMBER) :=
  ⟨rfl, rfl, rfl⟩

/-- Claim C8 counterexample: a failing block-list read produces no decision
response at all, refuting the claim that the caller still gets a valid
response with the conservative blocking message. -/
theorem c8_no_response_on_error :
    ¬ ∃ resp : DialogflowResponse,
        check_phone_number_fallible (Except.error "store unavailable") = Except.ok resp := by
  rintro ⟨resp, h⟩
  simp [check_phone_number_fallible] at h

/-- Claim C9 (amended): the query-ingestion path performs no fast block
check at all — the endpoint answers ok unconditionally, the Observation is
appended regardless of any existing block document, and the blocking
decision is independent of the block registry contents. -/
theorem c9_no_fast_block_check (cfg : Config) (p n c : String) (now : Int)
    (store : List Observation) (reg reg' : Registry) :
    (update_blocked_phone_numbers cfg p n now true store reg).1 = store ++ [⟨p, n, now⟩] ∧
    (update_blocked_phone_numbers cfg p n now true store reg).2.2 =
      (update_blocked_phone_numbers cfg p n now true store reg').2.2 ∧
    (register_query (some c) (some n)).1 = QueryResponse.ok := by
  refine ⟨rfl, ?_, rfl⟩
  simp only [update_blocked_phone_numbers]
  exact evalLoop_snd_registry_indep _ _ reg reg' _ _

/-- Claim C9 counterexample: with a block document already present for "X",
the ingestion path still answers ok (not BLOCKED with the entry reason) and
still appends the new Observation to the event store. -/
theorem c9_counterexample :
    (Registry.set Registry.empty "X" manualBlockDoc) "X" = some manualBlockDoc ∧
    register_query (some "X") (some "B") = (QueryResponse.ok, some ("X", "B")) ∧
    (update_blocked_phone_numbers defaultConfig "X" "B" 0 true []
        (Registry.set Registry.empty "X" manualBlockDoc)).1 = [⟨"X", "B", 0⟩] := by
  refine ⟨by decide, by decide, by decide⟩

/-- Claim C10: when a window triggers, the set on the block document is a
full replacement: whatever document was previously stored under the phone
number — including a manually created one — the resulting document is
exactly the three fields reason, block_timestamp, agent_id="automatic_block",
preserving nothing of the previous entry. -/
theorem c10_block_write_replaces_document (t : Nat) (now : Int) (reg : Registry)
    (prev : Document) (p name : String) (ids : Finset String)
    (rest : List (String × ReadResult))
    (_hprev : reg p = some prev) (htrig : t ≤ ids.card) :
    (evalLoop t now reg p ((name, ReadResult.ok ids) :: rest)).1 p =
      some [("reason", Value.str (blockReason name)),
            ("block_timestamp", Value.int now),
            ("agent_id", Value.str "automatic_block")] := by
  simp [evalLoop, htrig, Registry.set, automaticBlockDoc]

/-- Claim C10 witness: a manual block document for "X" is replaced wholesale
by the automatic three-field document at concrete inputs. -/
theorem c10_block_write_replaces_document_witness :
    (evalLoop 3 12345 (Registry.set Registry.empty "X" manualBlockDoc) "X"
        [("month", ReadResult.ok {"A", "B", "C"})]).1 "X" =
      some [("reason", Value.str (blockReason "month")),
            ("block_timestamp", Value.int 12345),
            ("agent_id", Value.str "automatic_block")] :=
  c10_block_write_replaces_document 3 12345 (Registry.set Registry.empty "X" manualBlockDoc)
    manualBlockDoc "X" "month" {"A", "B", "C"} [] (by simp [Registry.set]) (by decide)

end FraudManager
